import Mathlib

/-!
Verification development for the hospital floor-plan 3D viewer.

The embedding covers the procedural geometry builder (`buildHospital` in
`Scene.tsx`), the seeded scatter generator of the puddle/stain revision,
the layer-visibility effect, the click/pick logic, and the spherical
orbit-camera controller.

Numbers: IEEE-754 doubles are modelled as `Option ℚ` (`some q` a finite
value with exact rational arithmetic, `none` the non-finite marker NaN)
where the code is plain data arithmetic, and as `ℝ` where the code uses
`Math.PI` and trigonometry (camera controller).
-/

namespace Hospital

/-- Model of a JS number for the geometry builder: `some q` is a finite
value, `none` is NaN.  Finite arithmetic is exact rational arithmetic. -/
abbrev JsQ := Option ℚ

/-- JS addition: NaN absorbs. -/
def jsAdd : JsQ → JsQ → JsQ
  | some a, some b => some (a + b)
  | _, _ => none

/-- JS subtraction: NaN absorbs. -/
def jsSub : JsQ → JsQ → JsQ
  | some a, some b => some (a - b)
  | _, _ => none

/-- JS multiplication: NaN absorbs. -/
def jsMul : JsQ → JsQ → JsQ
  | some a, some b => some (a * b)
  | _, _ => none

/-- JS division by two, used for `x / 2` in the source. -/
def jsDiv2 : JsQ → JsQ
  | some a => some (a / 2)
  | none => none

/-- 3-component vector. -/
structure V3 (α : Type) where
  x : α
  y : α
  z : α
deriving DecidableEq

/-- The instance transform written by `createMatrix` (Scene.tsx:14-21):
the (position, rotation, scale) triple handed to `Matrix4.compose`.
The rotation arguments of the source are always rational multiples of π
(0, ±π/2), stored here as the coefficient of π. -/
structure Xform where
  pos : V3 JsQ
  scl : V3 JsQ
  rot : V3 ℚ
deriving DecidableEq

/-- `createMatrix(x, y, z, sx, sy, sz, rx, ry, rz)` (Scene.tsx:14-21). -/
def createMatrix (x y z : JsQ) (sx sy sz : JsQ) (rx ry rz : ℚ) : Xform :=
  ⟨⟨x, y, z⟩, ⟨sx, sy, sz⟩, ⟨rx, ry, rz⟩⟩

/-- Damage classification tags of a room (roomData.ts `DamageType`). -/
inductive DamageType where
  | floor | wall | ceiling | fixture | infrastructure
deriving DecidableEq

/-- Ceiling leak severity (roomData.ts `LeakSeverity`). -/
inductive LeakSeverity where
  | noLeak | moderate | severe
deriving DecidableEq

/-- The fields of a room record read by the geometry builder
(roomData.ts `Room`; the remaining fields of the interface are not read
by the modelled code paths). -/
structure Room where
  id : String
  x : JsQ
  z : JsQ
  width : JsQ
  depth : JsQ
  fixtures : List String
  damageTypes : List DamageType
  ceilingLeakSeverity : LeakSeverity
deriving DecidableEq

/-- Fixture-type tokens compared against by the builder. -/
def tokToilet : String := "toilet"

def tokSink : String := "sink"

def tokCabinet : String := "cabinet"

/-- Building constants (roomData.ts `BUILDING`, the revision consumed by
Scene.tsx: ceilingHeight etc. present). -/
structure BuildingC where
  width : ℚ
  length : ℚ
  floorHeight : ℚ
  ceilingHeight : ℚ
  plenumHeight : ℚ
  totalHeight : ℚ
  wallThickness : ℚ
  floodWaterHeight : ℚ
  wickingHeight : ℚ

def BUILDING : BuildingC :=
  ⟨150, 670, 10, 9, 3, 13, 1/2, 1/2, 2⟩

/-- Results of the counting pass of `buildHospital` (Scene.tsx:228-247). -/
structure Counts where
  toiletCount : ℕ
  sinkCount : ℕ
  cabinetCount : ℕ
  floorDamageCount : ℕ
  wallDamageCount : ℕ
  ceilingDamageCount : ℕ
  fixtureDamageCount : ℕ
deriving DecidableEq

/-- One fixture step of the counting pass inner loop (Scene.tsx:234-238). -/
def countFixture (c : Counts) (f : String) : Counts :=
  if f = tokToilet then { c with toiletCount := c.toiletCount + 1 }
  else if f = tokSink then { c with sinkCount := c.sinkCount + 1 }
  else if f = tokCabinet then { c with cabinetCount := c.cabinetCount + 1 }
  else c

/-- One room step of the counting pass (Scene.tsx:233-247). -/
def countRoom (c : Counts) (room : Room) : Counts :=
  let c := room.fixtures.foldl countFixture c
  let c := if room.damageTypes.contains DamageType.floor then
    { c with floorDamageCount := c.floorDamageCount + 1 } else c
  let c := if room.damageTypes.contains DamageType.wall then
    { c with wallDamageCount := c.wallDamageCount + 1 } else c
  let c := if room.ceilingLeakSeverity ≠ LeakSeverity.noLeak then
    { c with ceilingDamageCount := c.ceilingDamageCount + 1 } else c
  if room.damageTypes.contains DamageType.fixture then
    { c with fixtureDamageCount := c.fixtureDamageCount +
        (room.fixtures.filter (fun f =>
          ([tokToilet, tokSink, tokCabinet] : List String).contains f)).length }
  else c

/-- The counting pass over the room list (Scene.tsx:228-247). -/
def countInstances (rooms : List Room) : Counts :=
  rooms.foldl countRoom ⟨0, 0, 0, 0, 0, 0, 0⟩

/-- `wallCount = rooms.length * 4` (Scene.tsx:224). -/
def wallCount (rooms : List Room) : ℕ := rooms.length * 4

/-- `floorCount = rooms.length` (Scene.tsx:225). -/
def floorCount (rooms : List Room) : ℕ := rooms.length

/-- `ceilingCount = rooms.length` (Scene.tsx:226). -/
def ceilingCount (rooms : List Room) : ℕ := rooms.length

/-- Capacities of the `InstancedMesh` buffers created by `buildHospital`
(Scene.tsx:258-307), one field per batched category. -/
structure Caps where
  walls : ℕ
  floors : ℕ
  ceilings : ℕ
  floorDamage : ℕ
  wallDamage : ℕ
  toilets : ℕ
  sinks : ℕ
  cabinets : ℕ
  fixtureDamage : ℕ
  ducts : ℕ
  pipes : ℕ
  infraDamage : ℕ
deriving DecidableEq

/-- Buffer capacities as allocated by the source (Scene.tsx:258-307):
structural and floor/wall damage buffers use the raw counts, the fixture
and infrastructure buffers use `Math.max(1, count)`. -/
def allocCaps (rooms : List Room) : Caps :=
  let c := countInstances rooms
  ⟨wallCount rooms, floorCount rooms, ceilingCount rooms,
   c.floorDamageCount, c.wallDamageCount * 4,
   max 1 c.toiletCount, max 1 c.sinkCount, max 1 c.cabinetCount,
   max 1 c.fixtureDamageCount,
   max 1 c.ceilingDamageCount, max 1 c.ceilingDamageCount,
   max 1 c.ceilingDamageCount⟩

/-- The populated instance transforms of each batched buffer; each
`setMatrixAt` call of the fill pass appends one transform. -/
structure Buffers where
  walls : List Xform
  floors : List Xform
  ceilings : List Xform
  floorDamage : List Xform
  wallDamage : List Xform
  toilets : List Xform
  sinks : List Xform
  cabinets : List Xform
  fixtureDamage : List Xform
  ducts : List Xform
  pipes : List Xform
  infraDamage : List Xform
deriving DecidableEq

def emptyBuffers : Buffers := ⟨[], [], [], [], [], [], [], [], [], [], [], []⟩

/-- One fixture step of the fill pass (Scene.tsx:382-408): `index` is the
forEach index, `fixtureX = room.x + wallThickness + 2 + index * 3`,
`fixtureZ = room.z + room.depth - wallThickness - 2`. -/
def fillFixture (room : Room) (idx : ℕ) (f : String) (b : Buffers) : Buffers :=
  let wt := BUILDING.wallThickness
  let fixtureX := jsAdd (jsAdd (jsAdd room.x (some wt)) (some 2)) (some ((idx : ℚ) * 3))
  let fixtureZ := jsSub (jsSub (jsAdd room.z room.depth) (some wt)) (some 2)
  let dmg := room.damageTypes.contains DamageType.fixture
  if f = tokToilet then
    let b := { b with toilets := b.toilets ++
      [createMatrix fixtureX (some 0.75) fixtureZ (some 1) (some 1) (some 1) 0 0 0] }
    if dmg then
      { b with fixtureDamage := b.fixtureDamage ++
        [createMatrix fixtureX (some 0.25) fixtureZ (some 1.6) (some 1) (some 2.1) 0 0 0] }
    else b
  else if f = tokSink then
    let b := { b with sinks := b.sinks ++
      [createMatrix (jsAdd fixtureX (some 3)) (some 1.25) fixtureZ (some 1) (some 1) (some 1) 0 0 0] }
    if dmg then
      { b with fixtureDamage := b.fixtureDamage ++
        [createMatrix (jsAdd fixtureX (some 3)) (some 0.25) fixtureZ (some 2.1) (some 1) (some 1.6) 0 0 0] }
    else b
  else if f = tokCabinet then
    let b := { b with cabinets := b.cabinets ++
      [createMatrix fixtureX (some 1.5) fixtureZ (some 1) (some 1) (some 1) 0 0 0] }
    if dmg then
      { b with fixtureDamage := b.fixtureDamage ++
        [createMatrix fixtureX (some 0.5) fixtureZ (some 3.1) (some 1) (some 1.6) 0 0 0] }
    else b
  else b

/-- The `room.fixtures.forEach((fixture, index) => ...)` loop. -/
def fillFixtures (room : Room) : ℕ → List String → Buffers → Buffers
  | _, [], b => b
  | idx, f :: fs, b => fillFixtures room (idx + 1) fs (fillFixture room idx f b)

/-- The per-room body of the fill pass (Scene.tsx:316-437): floor,
ceiling, four walls, optional floor/wall damage overlays, the fixture
loop, and for rooms with a ceiling leak the duct/pipe/infrastructure
markers.  The hitbox used for picking is a separate (non-instanced) mesh. -/
def fillRoom (b : Buffers) (room : Room) : Buffers :=
  let wallHeight := BUILDING.floorHeight
  let wt := BUILDING.wallThickness
  let wickHeight := BUILDING.wickingHeight
  let cx := jsAdd room.x (jsDiv2 room.width)
  let cz := jsAdd room.z (jsDiv2 room.depth)
  let b := { b with floors := b.floors ++
    [createMatrix cx (some 0.01) cz room.width room.depth (some 1) (-(1/2)) 0 0] }
  let b := { b with ceilings := b.ceilings ++
    [createMatrix cx (some BUILDING.ceilingHeight) cz
      (jsSub room.width (some (wt * 2))) (jsSub room.depth (some (wt * 2))) (some 1)
      (1/2) 0 0] }
  let b := { b with walls := b.walls ++
    [createMatrix cx (some (wallHeight / 2)) room.z
      room.width (some wallHeight) (some wt) 0 0 0,
     createMatrix cx (some (wallHeight / 2)) (jsAdd room.z room.depth)
      room.width (some wallHeight) (some wt) 0 0 0,
     createMatrix room.x (some (wallHeight / 2)) cz
      (some wt) (some wallHeight) room.depth 0 0 0,
     createMatrix (jsAdd room.x room.width) (some (wallHeight / 2)) cz
      (some wt) (some wallHeight) room.depth 0 0 0] }
  let b := if room.damageTypes.contains DamageType.floor then
    { b with floorDamage := b.floorDamage ++
      [createMatrix cx (some 0.02) cz room.width room.depth (some 1) (-(1/2)) 0 0] }
    else b
  let b := if room.damageTypes.contains DamageType.wall then
    { b with wallDamage := b.wallDamage ++
      [createMatrix cx (some (wickHeight / 2)) (jsAdd room.z (some (wt / 2 + 0.1)))
        (jsSub room.width (some (wt * 2))) (some wickHeight) (some 0.1) 0 0 0,
       createMatrix cx (some (wickHeight / 2)) (jsSub (jsAdd room.z room.depth) (some (wt / 2 + 0.1)))
        (jsSub room.width (some (wt * 2))) (some wickHeight) (some 0.1) 0 0 0,
       createMatrix (jsAdd room.x (some (wt / 2 + 0.1))) (some (wickHeight / 2)) cz
        (some 0.1) (some wickHeight) (jsSub room.depth (some (wt * 2))) 0 0 0,
       createMatrix (jsSub (jsAdd room.x room.width) (some (wt / 2 + 0.1))) (some (wickHeight / 2)) cz
        (some 0.1) (some wickHeight) (jsSub room.depth (some (wt * 2))) 0 0 0] }
    else b
  let b := fillFixtures room 0 room.fixtures b
  if room.ceilingLeakSeverity ≠ LeakSeverity.noLeak then
    { b with
      ducts := b.ducts ++
        [createMatrix cx (some (BUILDING.ceilingHeight + 1.5)) cz
          (jsMul room.width (some 0.6)) (some 1) (some 1) 0 0 0],
      pipes := b.pipes ++
        [createMatrix cx (some (BUILDING.ceilingHeight + 0.5))
          (jsAdd room.z (jsMul room.depth (some 0.3)))
          (jsMul room.width (some 0.8)) (some 1) (some 1) 0 0 (1/2)],
      infraDamage := b.infraDamage ++
        [createMatrix cx (some (BUILDING.ceilingHeight + 2.2)) cz
          (jsMul room.width (some 0.3)) (some 1) (some 1) 0 0 0] }
  else b

/-- The full fill pass of `buildHospital` over the room list. -/
def fillBuffers (rooms : List Room) : Buffers :=
  rooms.foldl fillRoom emptyBuffers

/-! ### Seeded scatter generator (puddle/stain revision of Scene.tsx)

The revision kept under `src/unnamed/part_004` builds 80 floor puddles
and 50 ceiling stains from the deterministic sine-based hash
`seededRandom`.  `Math.sin` (a float transcendental) is abstracted as a
parameter `msin : ℚ → ℚ`; everything downstream of it is exact. -/

namespace Scatter

/-- `seededRandom(seed) = frac(sin(seed * 12.9898 + 78.233) * 43758.5453)`
(part_004:7-10), parametric in the model of `Math.sin`. -/
def seededRandom (msin : ℚ → ℚ) (seed : ℚ) : ℚ :=
  let x := msin (seed * 12.9898 + 78.233) * 43758.5453
  x - ⌊x⌋

/-- Building constants of the revision that pairs with part_004
(roomData.ts, first revision: width 150, length 530, floorHeight 10). -/
def bWidth : ℚ := 150

def bLength : ℚ := 530

def bFloorHeight : ℚ := 10

def waterOverflow : ℚ := 10

/-- One scattered damage element: position, non-uniform scale and
opacity as written to the mesh (part_004:345-358 / 419-431). -/
structure Elem where
  px : ℚ
  py : ℚ
  pz : ℚ
  sx : ℚ
  sy : ℚ
  sz : ℚ
  opacity : ℚ
deriving DecidableEq

/-- `puddleSeed = p * 137 + 42` (part_004:328). -/
def puddleSeed (p : ℕ) : ℚ := (p : ℚ) * 137 + 42

/-- The body of the puddle loop (part_004:327-359). -/
def puddleAt (msin : ℚ → ℚ) (p : ℕ) : Elem :=
  let seed := puddleSeed p
  let puddleX := -waterOverflow + seededRandom msin seed * (bWidth + waterOverflow * 2)
  let puddleZ := -waterOverflow + seededRandom msin (seed + 1) * (bLength + waterOverflow * 2)
  let puddleRadius := 2 + seededRandom msin (seed + 2) * 6
  let scaleX := 0.7 + seededRandom msin (seed + 3) * 0.6
  let scaleZ := 0.7 + seededRandom msin (seed + 4) * 0.6
  let isDense := seededRandom msin (seed + 5) > 0.7
  let opacity := if isDense then 0.25 + seededRandom msin (seed + 6) * 0.15
    else 0.15 + seededRandom msin (seed + 6) * 0.10
  ⟨puddleX, 0.02 + (p : ℚ) * 0.001, puddleZ,
   puddleRadius * scaleX, puddleRadius * scaleZ, 1, opacity⟩

/-- The puddle element as a function of the seven hash samples drawn at
seed offsets 0..6; used to state that the element depends on nothing
else. -/
def puddleOfSamples (p : ℕ) (r : ℕ → ℚ) : Elem :=
  let puddleX := -waterOverflow + r 0 * (bWidth + waterOverflow * 2)
  let puddleZ := -waterOverflow + r 1 * (bLength + waterOverflow * 2)
  let puddleRadius := 2 + r 2 * 6
  let scaleX := 0.7 + r 3 * 0.6
  let scaleZ := 0.7 + r 4 * 0.6
  let opacity := if r 5 > 0.7 then 0.25 + r 6 * 0.15 else 0.15 + r 6 * 0.10
  ⟨puddleX, 0.02 + (p : ℚ) * 0.001, puddleZ,
   puddleRadius * scaleX, puddleRadius * scaleZ, 1, opacity⟩

/-- `stainSeed = s * 173 + 89` (part_004:402). -/
def stainSeed (s : ℕ) : ℚ := (s : ℚ) * 173 + 89

/-- The body of the ceiling-stain loop (part_004:401-432). -/
def stainAt (msin : ℚ → ℚ) (s : ℕ) : Elem :=
  let seed := stainSeed s
  let stainX := seededRandom msin seed * bWidth
  let stainZ := seededRandom msin (seed + 1) * bLength
  let stainRadius := 1 + seededRandom msin (seed + 2) * 3
  let scaleX := 0.7 + seededRandom msin (seed + 3) * 0.6
  let scaleZ := 0.7 + seededRandom msin (seed + 4) * 0.6
  let isDark := seededRandom msin (seed + 5) > 0.7
  let opacity := if isDark then 0.25 + seededRandom msin (seed + 6) * 0.15
    else 0.15 + seededRandom msin (seed + 6) * 0.10
  ⟨stainX, bFloorHeight - 0.01 - (s : ℚ) * 0.001, stainZ,
   stainRadius * scaleX, stainRadius * scaleZ, 1, opacity⟩

/-- The stain element as a function of its seven hash samples. -/
def stainOfSamples (s : ℕ) (r : ℕ → ℚ) : Elem :=
  let stainX := r 0 * bWidth
  let stainZ := r 1 * bLength
  let stainRadius := 1 + r 2 * 3
  let scaleX := 0.7 + r 3 * 0.6
  let scaleZ := 0.7 + r 4 * 0.6
  let opacity := if r 5 > 0.7 then 0.25 + r 6 * 0.15 else 0.15 + r 6 * 0.10
  ⟨stainX, bFloorHeight - 0.01 - (s : ℚ) * 0.001, stainZ,
   stainRadius * scaleX, stainRadius * scaleZ, 1, opacity⟩

/-- `totalPuddles = 80` scattered elements (part_004:324-359). -/
def buildPuddles (msin : ℚ → ℚ) : List Elem :=
  (List.range 80).map (puddleAt msin)

/-- `totalStains = 50` scattered elements (part_004:398-432). -/
def buildStains (msin : ℚ → ℚ) : List Elem :=
  (List.range 50).map (stainAt msin)

end Scatter

/-! ### Layer visibility (Scene.tsx:152-161, useLayers.ts) -/

/-- The toggle state exposed by `useLayers` (the revision paired with
Scene.tsx: main `flood` toggle plus three sub-toggles). -/
structure LayerState where
  flood : Bool
  floorDamage : Bool
  wallDamage : Bool
  ceilingDamage : Bool
deriving DecidableEq

/-- A layer group: the primitives assigned to it at build time, plus the
single visibility flag. -/
structure LGroup (α : Type) where
  contents : α
  visible : Bool
deriving DecidableEq

/-- The four groups held in `layerGroupsRef`. -/
structure SceneGroups (α : Type) where
  building : LGroup α
  floorDamage : LGroup α
  wallDamage : LGroup α
  ceilingDamage : LGroup α
deriving DecidableEq

/-- The visibility effect (Scene.tsx:153-161): building is forced
visible, the three damage groups take the matching toggle booleans;
nothing else about the groups is touched. -/
def applyVisibility (g : SceneGroups α) (l : LayerState) : SceneGroups α :=
  { building := { g.building with visible := true },
    floorDamage := { g.floorDamage with visible := l.floorDamage },
    wallDamage := { g.wallDamage with visible := l.wallDamage },
    ceilingDamage := { g.ceilingDamage with visible := l.ceilingDamage } }

/-! ### Click / drag disambiguation and picking (Scene.tsx:634-663) -/

/-- `moveThreshold = 5` (Scene.tsx:638). -/
def moveThreshold : ℚ := 5

/-- Whether `handleClick` proceeds to ray-cast picking: it returns early
when `dx > 5 || dy > 5` where `dx`/`dy` are the per-axis absolute pixel
deltas from `lastMouseRef` (Scene.tsx:638-641). -/
def doesPick (clickX clickY lastX lastY : ℚ) : Bool :=
  let dx := |clickX - lastX|
  let dy := |clickY - lastY|
  if dx > moveThreshold ∨ dy > moveThreshold then false else true

/-- One ray-cast hit: the room volume struck and its distance along the
ray. -/
structure Hit where
  roomId : String
  dist : ℚ
deriving DecidableEq

/-- The ascending-by-distance order used by three.js
`Raycaster.intersectObjects`. -/
def hitLe (a b : Hit) : Prop := a.dist ≤ b.dist

instance : DecidableRel hitLe := fun a b => inferInstanceAs (Decidable (a.dist ≤ b.dist))

instance : IsTotal Hit hitLe := ⟨fun a b => le_total a.dist b.dist⟩

instance : IsTrans Hit hitLe := ⟨fun _ _ _ hab hbc => le_trans hab hbc⟩

/-- `intersectObjects` returns the hits sorted nearest-first. -/
def sortHits (hits : List Hit) : List Hit :=
  hits.insertionSort hitLe

/-- The selection step of `handleClick` (Scene.tsx:651-662): take the
first (nearest) hit; clicking the already-selected room clears the
selection, a different room becomes selected, no hit clears. -/
def pickNearest (hits : List Hit) (selected : Option String) : Option String :=
  match sortHits hits with
  | [] => none
  | h :: _ => if selected = some h.roomId then none else some h.roomId

/-! ### Orbit camera controller (Scene.tsx:24-33, 114-132, 588-632)

The camera state uses `ℝ` since the limits involve `Math.PI`. -/

/-- `PHI_MIN = 0.1` (Scene.tsx:32). -/
noncomputable def PHI_MIN : ℝ := 0.1

/-- `PHI_MAX = Math.PI / 2 - 0.1` (Scene.tsx:33). -/
noncomputable def PHI_MAX : ℝ := Real.pi / 2 - 0.1

/-- `THETA_LIMIT = Math.PI / 2` (Scene.tsx:31). -/
noncomputable def THETA_LIMIT : ℝ := Real.pi / 2

/-- `DEFAULT_CAMERA.theta = Math.PI / 4` (Scene.tsx:27). -/
noncomputable def DEFAULT_THETA : ℝ := Real.pi / 4

/-- The mutable camera interaction state: `sphericalRef`,
`isDraggingRef` and `lastMouseRef`. -/
structure CamState where
  radius : ℝ
  phi : ℝ
  theta : ℝ
  dragging : Bool
  lastX : ℝ
  lastY : ℝ

/-- `sphericalRef` initial value `{ radius: 350, phi: π/4, theta: π/4 }`
with `isDraggingRef = false` and `lastMouseRef = {0, 0}`. -/
noncomputable def defaultCam : CamState :=
  ⟨350, Real.pi / 4, Real.pi / 4, false, 0, 0⟩

/-- Pointer / wheel events handled by the Scene camera. -/
inductive CamEvt where
  | down (button : ℕ) (x y : ℝ)
  | up
  | move (x y : ℝ)
  | wheel (dy : ℝ)

/-- One event step: `handleMouseDown` (Scene.tsx:588-593), `handleMouseUp`
(595-597, also fired on mouse leave), `handleMouseMove` (599-624) and
`handleWheel` (627-632). -/
noncomputable def camStep (s : CamState) : CamEvt → CamState
  | .down button x y =>
      if button = 0 then { s with dragging := true, lastX := x, lastY := y } else s
  | .up => { s with dragging := false }
  | .move x y =>
      if s.dragging then
        let deltaX := x - s.lastX
        let deltaY := y - s.lastY
        let thetaDelta := -deltaX * 0.003
        let phiDelta := deltaY * 0.003
        let newTheta := s.theta + thetaDelta
        let newPhi := s.phi + phiDelta
        { s with
          lastX := x, lastY := y,
          theta := max (DEFAULT_THETA - THETA_LIMIT) (min (DEFAULT_THETA + THETA_LIMIT) newTheta),
          phi := max PHI_MIN (min PHI_MAX newPhi) }
      else s
  | .wheel dy =>
      { s with radius := max 100 (min 600 (s.radius * (1 + dy * 0.001))) }

/-- Processing a sequence of pointer/wheel events. -/
noncomputable def camRun (s : CamState) (es : List CamEvt) : CamState :=
  es.foldl camStep s

/-- The per-frame spherical-to-Cartesian conversion of the render loop
(Scene.tsx:120-122). -/
structure Vec3R where
  x : ℝ
  y : ℝ
  z : ℝ

/-- `camera.position` as computed by `animate` from the spherical state
and the look-at target. -/
noncomputable def animCameraPos (target : Vec3R) (s : CamState) : Vec3R :=
  ⟨target.x + s.radius * Real.sin s.phi * Real.sin s.theta,
   target.y + s.radius * Real.cos s.phi,
   target.z + s.radius * Real.sin s.phi * Real.cos s.theta⟩

/-! ### NaN-aware `handleMouseMove` (for the NaN-guarding claim)

`some r` is a finite value, `none` is NaN.  Per ECMAScript, arithmetic
on NaN yields NaN and `Math.min` / `Math.max` return NaN whenever any
argument is NaN. -/

abbrev JsR := Option ℝ

noncomputable def jsAddR : JsR → JsR → JsR
  | some a, some b => some (a + b)
  | _, _ => none

noncomputable def jsSubR : JsR → JsR → JsR
  | some a, some b => some (a - b)
  | _, _ => none

noncomputable def jsMulR : JsR → JsR → JsR
  | some a, some b => some (a * b)
  | _, _ => none

noncomputable def jsNegR : JsR → JsR
  | some a => some (-a)
  | none => none

/-- `Math.max`: NaN if either argument is NaN. -/
noncomputable def jsMaxR : JsR → JsR → JsR
  | some a, some b => some (max a b)
  | _, _ => none

/-- `Math.min`: NaN if either argument is NaN. -/
noncomputable def jsMinR : JsR → JsR → JsR
  | some a, some b => some (min a b)
  | _, _ => none

/-- The camera state with JS-number (possibly NaN) fields. -/
structure JsCam where
  phi : JsR
  theta : JsR
  lastX : JsR
  lastY : JsR
  dragging : Bool

/-- `handleMouseMove` (Scene.tsx:599-624) over JS numbers: the deltas,
the clamped writes of `theta` and `phi`, and the `lastMouseRef` update,
with NaN propagation as in ECMAScript. -/
noncomputable def handleMouseMoveJs (s : JsCam) (x y : JsR) : JsCam :=
  if s.dragging then
    let deltaX := jsSubR x s.lastX
    let deltaY := jsSubR y s.lastY
    let thetaDelta := jsMulR (jsNegR deltaX) (some 0.003)
    let phiDelta := jsMulR deltaY (some 0.003)
    let newTheta := jsAddR s.theta thetaDelta
    let newPhi := jsAddR s.phi phiDelta
    { s with
      lastX := x, lastY := y,
      theta := jsMaxR (some (DEFAULT_THETA - THETA_LIMIT))
        (jsMinR (some (DEFAULT_THETA + THETA_LIMIT)) newTheta),
      phi := jsMaxR (some PHI_MIN) (jsMinR (some PHI_MAX) newPhi) }
  else s

/-- The camera bounds: radius in [100, 600], phi in
[PHI_MIN, PHI_MAX], theta within THETA_LIMIT of the default. -/
noncomputable def camInv (s : CamState) : Prop :=
  100 ≤ s.radius ∧ s.radius ≤ 600 ∧
  PHI_MIN ≤ s.phi ∧ s.phi ≤ PHI_MAX ∧
  DEFAULT_THETA - THETA_LIMIT ≤ s.theta ∧ s.theta ≤ DEFAULT_THETA + THETA_LIMIT

/-- A dragging camera state with finite default angles, used to exhibit
NaN propagation. -/
noncomputable def c7cam : JsCam :=
  ⟨some (Real.pi / 4), some (Real.pi / 4), some 0, some 0, true⟩

/-- The number of filtered fixture tokens counted by the fixture-damage
branch of the counting pass. -/
def fixtureTokens (room : Room) : ℕ :=
  (room.fixtures.filter (fun f =>
    ([tokToilet, tokSink, tokCabinet] : List String).contains f)).length

/-- Total number of a given fixture token across all rooms. -/
def totFixture (tok : String) (rooms : List Room) : ℕ :=
  (rooms.map (fun r => r.fixtures.countP (fun g => g == tok))).sum

/-- Number of rooms whose damage list contains a given tag. -/
def totDamage (d : DamageType) (rooms : List Room) : ℕ :=
  (rooms.map (fun r => if r.damageTypes.contains d then 1 else 0)).sum

/-- Number of rooms with an actual ceiling leak. -/
def totLeak (rooms : List Room) : ℕ :=
  (rooms.map (fun r => if r.ceilingLeakSeverity ≠ LeakSeverity.noLeak then 1 else 0)).sum

/-- Total fixture-damage markers: per room with fixture damage, the
number of its toilet/sink/cabinet fixtures. -/
def totFixtureDamage (rooms : List Room) : ℕ :=
  (rooms.map (fun r =>
    if r.damageTypes.contains DamageType.fixture then fixtureTokens r else 0)).sum

/-! ### Finiteness predicates and sample inputs -/

/-- A JS-number vector with all components finite (no NaN). -/
def V3finite (v : V3 JsQ) : Bool :=
  v.x.isSome && v.y.isSome && v.z.isSome

/-- A transform with finite position and scale (its rotation components
are exact rational multiples of π by construction). -/
def xformFinite (t : Xform) : Bool :=
  V3finite t.pos && V3finite t.scl

/-- A room record whose coordinates and extents are finite. -/
def roomFinite (r : Room) : Bool :=
  r.x.isSome && r.z.isSome && r.width.isSome && r.depth.isSome

/-- All transforms written into any batched buffer. -/
def allX (b : Buffers) : List Xform :=
  b.walls ++ b.floors ++ b.ceilings ++ b.floorDamage ++ b.wallDamage ++
  b.toilets ++ b.sinks ++ b.cabinets ++ b.fixtureDamage ++
  b.ducts ++ b.pipes ++ b.infraDamage

/-- Every transform written into any batched buffer is NaN-free. -/
def buffersFinite (b : Buffers) : Prop :=
  ∀ t ∈ allX b, xformFinite t = true

/-- A room with every fixture type and every damage tag: exercises all
branches of the builder. -/
def roomFull : Room :=
  ⟨"full", some 20, some 30, some 14, some 12,
   [tokToilet, tokSink, tokCabinet],
   [DamageType.floor, DamageType.wall, DamageType.fixture],
   LeakSeverity.moderate⟩

/-- A room with no fixtures and no damage: all damage-category counts
over `[roomClean]` are zero. -/
def roomClean : Room :=
  ⟨"clean", some 0, some 0, some 10, some 8, [], [], LeakSeverity.noLeak⟩

/-- A room whose x coordinate is NaN. -/
def roomNaN : Room :=
  ⟨"nan", none, some 0, some 10, some 8, [], [], LeakSeverity.noLeak⟩

/-! ### Counting-pass lemmas -/

lemma countFixture_toiletCount (c : Counts) (f : String) :
    (countFixture c f).toiletCount = c.toiletCount + (if f = tokToilet then 1 else 0) := by
  simp only [countFixture]
  split_ifs <;> simp_all [tokToilet, tokSink, tokCabinet]

lemma countFixture_sinkCount (c : Counts) (f : String) :
    (countFixture c f).sinkCount = c.sinkCount + (if f = tokSink then 1 else 0) := by
  simp only [countFixture]
  split_ifs <;> simp_all [tokToilet, tokSink, tokCabinet]

lemma countFixture_cabinetCount (c : Counts) (f : String) :
    (countFixture c f).cabinetCount = c.cabinetCount + (if f = tokCabinet then 1 else 0) := by
  simp only [countFixture]
  split_ifs <;> simp_all [tokToilet, tokSink, tokCabinet]

lemma countFixture_damageCounts (c : Counts) (f : String) :
    (countFixture c f).floorDamageCount = c.floorDamageCount ∧
    (countFixture c f).wallDamageCount = c.wallDamageCount ∧
    (countFixture c f).ceilingDamageCount = c.ceilingDamageCount ∧
    (countFixture c f).fixtureDamageCount = c.fixtureDamageCount := by
  simp only [countFixture]
  split_ifs <;> exact ⟨rfl, rfl, rfl, rfl⟩

lemma foldl_countFixture_toiletCount (fs : List String) (c : Counts) :
    (fs.foldl countFixture c).toiletCount =
      c.toiletCount + fs.countP (fun g => g == tokToilet) := by
  induction fs generalizing c with
  | nil => simp
  | cons f fs ih =>
    rw [List.foldl_cons, ih, List.countP_cons, countFixture_toiletCount]
    simp only [beq_iff_eq]
    split_ifs <;> omega

lemma foldl_countFixture_sinkCount (fs : List String) (c : Counts) :
    (fs.foldl countFixture c).sinkCount =
      c.sinkCount + fs.countP (fun g => g == tokSink) := by
  induction fs generalizing c with
  | nil => simp
  | cons f fs ih =>
    rw [List.foldl_cons, ih, List.countP_cons, countFixture_sinkCount]
    simp only [beq_iff_eq]
    split_ifs <;> omega

lemma foldl_countFixture_cabinetCount (fs : List String) (c : Counts) :
    (fs.foldl countFixture c).cabinetCount =
      c.cabinetCount + fs.countP (fun g => g == tokCabinet) := by
  induction fs generalizing c with
  | nil => simp
  | cons f fs ih =>
    rw [List.foldl_cons, ih, List.countP_cons, countFixture_cabinetCount]
    simp only [beq_iff_eq]
    split_ifs <;> omega

lemma foldl_countFixture_damageCounts (fs : List String) (c : Counts) :
    (fs.foldl countFixture c).floorDamageCount = c.floorDamageCount ∧
    (fs.foldl countFixture c).wallDamageCount = c.wallDamageCount ∧
    (fs.foldl countFixture c).ceilingDamageCount = c.ceilingDamageCount ∧
    (fs.foldl countFixture c).fixtureDamageCount = c.fixtureDamageCount := by
  induction fs generalizing c with
  | nil => exact ⟨rfl, rfl, rfl, rfl⟩
  | cons f fs ih =>
    rw [List.foldl_cons]
    obtain ⟨h1, h2, h3, h4⟩ := ih (countFixture c f)
    obtain ⟨g1, g2, g3, g4⟩ := countFixture_damageCounts c f
    exact ⟨h1.trans g1, h2.trans g2, h3.trans g3, h4.trans g4⟩

lemma countRoom_toiletCount (c : Counts) (room : Room) :
    (countRoom c room).toiletCount =
      c.toiletCount + room.fixtures.countP (fun g => g == tokToilet) := by
  simp only [countRoom]
  split_ifs <;>
    simp [foldl_countFixture_toiletCount]

lemma countRoom_sinkCount (c : Counts) (room : Room) :
    (countRoom c room).sinkCount =
      c.sinkCount + room.fixtures.countP (fun g => g == tokSink) := by
  simp only [countRoom]
  split_ifs <;>
    simp [foldl_countFixture_sinkCount]

lemma countRoom_cabinetCount (c : Counts) (room : Room) :
    (countRoom c room).cabinetCount =
      c.cabinetCount + room.fixtures.countP (fun g => g == tokCabinet) := by
  simp only [countRoom]
  split_ifs <;>
    simp [foldl_countFixture_cabinetCount]

lemma countRoom_floorDamageCount (c : Counts) (room : Room) :
    (countRoom c room).floorDamageCount =
      c.floorDamageCount +
        (if room.damageTypes.contains DamageType.floor then 1 else 0) := by
  simp only [countRoom]
  split_ifs <;>
    simp [(foldl_countFixture_damageCounts room.fixtures c).1]

lemma countRoom_wallDamageCount (c : Counts) (room : Room) :
    (countRoom c room).wallDamageCount =
      c.wallDamageCount +
        (if room.damageTypes.contains DamageType.wall then 1 else 0) := by
  simp only [countRoom]
  split_ifs <;>
    simp [(foldl_countFixture_damageCounts room.fixtures c).2.1]

lemma countRoom_ceilingDamageCount (c : Counts) (room : Room) :
    (countRoom c room).ceilingDamageCount =
      c.ceilingDamageCount +
        (if room.ceilingLeakSeverity ≠ LeakSeverity.noLeak then 1 else 0) := by
  simp only [countRoom]
  split_ifs <;>
    simp_all [(foldl_countFixture_damageCounts room.fixtures c).2.2.1]

lemma countRoom_fixtureDamageCount (c : Counts) (room : Room) :
    (countRoom c room).fixtureDamageCount =
      c.fixtureDamageCount +
        (if room.damageTypes.contains DamageType.fixture then fixtureTokens room else 0) := by
  simp only [countRoom, fixtureTokens]
  split_ifs <;>
    simp [(foldl_countFixture_damageCounts room.fixtures c).2.2.2]

/-! ### Fill-pass lemmas -/

lemma fillFixture_unchanged (room : Room) (idx : ℕ) (f : String) (b : Buffers) :
    (fillFixture room idx f b).walls = b.walls ∧
    (fillFixture room idx f b).floors = b.floors ∧
    (fillFixture room idx f b).ceilings = b.ceilings ∧
    (fillFixture room idx f b).floorDamage = b.floorDamage ∧
    (fillFixture room idx f b).wallDamage = b.wallDamage ∧
    (fillFixture room idx f b).ducts = b.ducts ∧
    (fillFixture room idx f b).pipes = b.pipes ∧
    (fillFixture room idx f b).infraDamage = b.infraDamage := by
  simp only [fillFixture]
  split_ifs <;> exact ⟨rfl, rfl, rfl, rfl, rfl, rfl, rfl, rfl⟩

lemma fillFixture_toilets (room : Room) (idx : ℕ) (f : String) (b : Buffers) :
    (fillFixture room idx f b).toilets.length =
      b.toilets.length + (if f = tokToilet then 1 else 0) := by
  simp only [fillFixture]
  split_ifs <;> simp_all [tokToilet, tokSink, tokCabinet]

lemma fillFixture_sinks (room : Room) (idx : ℕ) (f : String) (b : Buffers) :
    (fillFixture room idx f b).sinks.length =
      b.sinks.length + (if f = tokSink then 1 else 0) := by
  simp only [fillFixture]
  split_ifs <;> simp_all [tokToilet, tokSink, tokCabinet]

lemma fillFixture_cabinets (room : Room) (idx : ℕ) (f : String) (b : Buffers) :
    (fillFixture room idx f b).cabinets.length =
      b.cabinets.length + (if f = tokCabinet then 1 else 0) := by
  simp only [fillFixture]
  split_ifs <;> simp_all [tokToilet, tokSink, tokCabinet]

lemma fillFixture_fixtureDamage (room : Room) (idx : ℕ) (f : String) (b : Buffers) :
    (fillFixture room idx f b).fixtureDamage.length =
      b.fixtureDamage.length +
        (if room.damageTypes.contains DamageType.fixture ∧
            ([tokToilet, tokSink, tokCabinet] : List String).contains f
         then 1 else 0) := by
  simp only [fillFixture]
  split_ifs <;> simp_all [tokToilet, tokSink, tokCabinet]

lemma fillFixtures_unchanged (room : Room) (fs : List String) (idx : ℕ) (b : Buffers) :
    (fillFixtures room idx fs b).walls = b.walls ∧
    (fillFixtures room idx fs b).floors = b.floors ∧
    (fillFixtures room idx fs b).ceilings = b.ceilings ∧
    (fillFixtures room idx fs b).floorDamage = b.floorDamage ∧
    (fillFixtures room idx fs b).wallDamage = b.wallDamage ∧
    (fillFixtures room idx fs b).ducts = b.ducts ∧
    (fillFixtures room idx fs b).pipes = b.pipes ∧
    (fillFixtures room idx fs b).infraDamage = b.infraDamage := by
  induction fs generalizing idx b with
  | nil => exact ⟨rfl, rfl, rfl, rfl, rfl, rfl, rfl, rfl⟩
  | cons f fs ih =>
    obtain ⟨h1, h2, h3, h4, h5, h6, h7, h8⟩ := ih (idx + 1) (fillFixture room idx f b)
    obtain ⟨g1, g2, g3, g4, g5, g6, g7, g8⟩ := fillFixture_unchanged room idx f b
    exact ⟨h1.trans g1, h2.trans g2, h3.trans g3, h4.trans g4,
      h5.trans g5, h6.trans g6, h7.trans g7, h8.trans g8⟩

lemma fillFixtures_toilets (room : Room) (fs : List String) (idx : ℕ) (b : Buffers) :
    (fillFixtures room idx fs b).toilets.length =
      b.toilets.length + fs.countP (fun g => g == tokToilet) := by
  induction fs generalizing idx b with
  | nil => simp [fillFixtures]
  | cons f fs ih =>
    rw [fillFixtures, ih, fillFixture_toilets, List.countP_cons]
    simp only [beq_iff_eq]
    split_ifs <;> omega

lemma fillFixtures_sinks (room : Room) (fs : List String) (idx : ℕ) (b : Buffers) :
    (fillFixtures room idx fs b).sinks.length =
      b.sinks.length + fs.countP (fun g => g == tokSink) := by
  induction fs generalizing idx b with
  | nil => simp [fillFixtures]
  | cons f fs ih =>
    rw [fillFixtures, ih, fillFixture_sinks, List.countP_cons]
    simp only [beq_iff_eq]
    split_ifs <;> omega

lemma fillFixtures_cabinets (room : Room) (fs : List String) (idx : ℕ) (b : Buffers) :
    (fillFixtures room idx fs b).cabinets.length =
      b.cabinets.length + fs.countP (fun g => g == tokCabinet) := by
  induction fs generalizing idx b with
  | nil => simp [fillFixtures]
  | cons f fs ih =>
    rw [fillFixtures, ih, fillFixture_cabinets, List.countP_cons]
    simp only [beq_iff_eq]
    split_ifs <;> omega

lemma fillFixtures_fixtureDamage (room : Room) (fs : List String) (idx : ℕ) (b : Buffers) :
    (fillFixtures room idx fs b).fixtureDamage.length =
      b.fixtureDamage.length +
        (if room.damageTypes.contains DamageType.fixture
         then (fs.filter (fun f =>
            ([tokToilet, tokSink, tokCabinet] : List String).contains f)).length
         else 0) := by
  induction fs generalizing idx b with
  | nil => simp [fillFixtures]
  | cons f fs ih =>
    rw [fillFixtures, ih, fillFixture_fixtureDamage, List.filter_cons]
    split_ifs <;> simp_all
    omega

lemma fillRoom_walls (b : Buffers) (room : Room) :
    (fillRoom b room).walls.length = b.walls.length + 4 := by
  simp only [fillRoom]
  split_ifs <;>
    simp [(fillFixtures_unchanged room room.fixtures 0 _).1]

lemma fillRoom_floors (b : Buffers) (room : Room) :
    (fillRoom b room).floors.length = b.floors.length + 1 := by
  simp only [fillRoom]
  split_ifs <;>
    simp [(fillFixtures_unchanged room room.fixtures 0 _).2.1]

lemma fillRoom_ceilings (b : Buffers) (room : Room) :
    (fillRoom b room).ceilings.length = b.ceilings.length + 1 := by
  simp only [fillRoom]
  split_ifs <;>
    simp [(fillFixtures_unchanged room room.fixtures 0 _).2.2.1]

lemma fillRoom_floorDamage (b : Buffers) (room : Room) :
    (fillRoom b room).floorDamage.length =
      b.floorDamage.length +
        (if room.damageTypes.contains DamageType.floor then 1 else 0) := by
  simp only [fillRoom]
  split_ifs <;>
    simp_all [(fillFixtures_unchanged room room.fixtures 0 _).2.2.2.1]

lemma fillRoom_wallDamage (b : Buffers) (room : Room) :
    (fillRoom b room).wallDamage.length =
      b.wallDamage.length +
        (if room.damageTypes.contains DamageType.wall then 4 else 0) := by
  simp only [fillRoom]
  split_ifs <;>
    simp_all [(fillFixtures_unchanged room room.fixtures 0 _).2.2.2.2.1]

lemma fillRoom_toilets (b : Buffers) (room : Room) :
    (fillRoom b room).toilets.length =
      b.toilets.length + room.fixtures.countP (fun g => g == tokToilet) := by
  simp only [fillRoom]
  split_ifs <;>
    simp [fillFixtures_toilets]

lemma fillRoom_sinks (b : Buffers) (room : Room) :
    (fillRoom b room).sinks.length =
      b.sinks.length + room.fixtures.countP (fun g => g == tokSink) := by
  simp only [fillRoom]
  split_ifs <;>
    simp [fillFixtures_sinks]

lemma fillRoom_cabinets (b : Buffers) (room : Room) :
    (fillRoom b room).cabinets.length =
      b.cabinets.length + room.fixtures.countP (fun g => g == tokCabinet) := by
  simp only [fillRoom]
  split_ifs <;>
    simp [fillFixtures_cabinets]

lemma fillRoom_fixtureDamage (b : Buffers) (room : Room) :
    (fillRoom b room).fixtureDamage.length =
      b.fixtureDamage.length +
        (if room.damageTypes.contains DamageType.fixture then fixtureTokens room else 0) := by
  simp only [fillRoom, fixtureTokens]
  split_ifs <;>
    simp_all [fillFixtures_fixtureDamage]

lemma fillRoom_ducts (b : Buffers) (room : Room) :
    (fillRoom b room).ducts.length =
      b.ducts.length +
        (if room.ceilingLeakSeverity ≠ LeakSeverity.noLeak then 1 else 0) := by
  simp only [fillRoom]
  split_ifs <;>
    simp_all [(fillFixtures_unchanged room room.fixtures 0 _).2.2.2.2.2.1]

lemma fillRoom_pipes (b : Buffers) (room : Room) :
    (fillRoom b room).pipes.length =
      b.pipes.length +
        (if room.ceilingLeakSeverity ≠ LeakSeverity.noLeak then 1 else 0) := by
  simp only [fillRoom]
  split_ifs <;>
    simp_all [(fillFixtures_unchanged room room.fixtures 0 _).2.2.2.2.2.2.1]

lemma fillRoom_infraDamage (b : Buffers) (room : Room) :
    (fillRoom b room).infraDamage.length =
      b.infraDamage.length +
        (if room.ceilingLeakSeverity ≠ LeakSeverity.noLeak then 1 else 0) := by
  simp only [fillRoom]
  split_ifs <;>
    simp_all [(fillFixtures_unchanged room room.fixtures 0 _).2.2.2.2.2.2.2]

/-! ### Finiteness propagation -/

@[simp] lemma jsAdd_isSome (a b : JsQ) : (jsAdd a b).isSome = (a.isSome && b.isSome) := by
  cases a <;> cases b <;> rfl

@[simp] lemma jsSub_isSome (a b : JsQ) : (jsSub a b).isSome = (a.isSome && b.isSome) := by
  cases a <;> cases b <;> rfl

@[simp] lemma jsMul_isSome (a b : JsQ) : (jsMul a b).isSome = (a.isSome && b.isSome) := by
  cases a <;> cases b <;> rfl

@[simp] lemma jsDiv2_isSome (a : JsQ) : (jsDiv2 a).isSome = a.isSome := by
  cases a <;> rfl

lemma roomFinite_fields {r : Room} (h : roomFinite r = true) :
    r.x.isSome = true ∧ r.z.isSome = true ∧
    r.width.isSome = true ∧ r.depth.isSome = true := by
  simp only [roomFinite, Bool.and_eq_true] at h
  tauto

lemma fillFixture_toilets_finite (room : Room) (hroom : roomFinite room = true)
    (idx : ℕ) (f : String) (b : Buffers)
    (hb : ∀ t ∈ b.toilets, xformFinite t = true) :
    ∀ t ∈ (fillFixture room idx f b).toilets, xformFinite t = true := by
  obtain ⟨hx, hz, hw, hd⟩ := roomFinite_fields hroom
  simp only [fillFixture]
  split_ifs <;> intro t ht <;>
    first
      | exact hb t ht
      | (simp only [List.mem_append, List.mem_cons, List.not_mem_nil, or_false] at ht
         rcases ht with ht | rfl
         · exact hb t ht
         · simp [xformFinite, V3finite, createMatrix, hx, hz, hw, hd])

lemma fillFixture_sinks_finite (room : Room) (hroom : roomFinite room = true)
    (idx : ℕ) (f : String) (b : Buffers)
    (hb : ∀ t ∈ b.sinks, xformFinite t = true) :
    ∀ t ∈ (fillFixture room idx f b).sinks, xformFinite t = true := by
  obtain ⟨hx, hz, hw, hd⟩ := roomFinite_fields hroom
  simp only [fillFixture]
  split_ifs <;> intro t ht <;>
    first
      | exact hb t ht
      | (simp only [List.mem_append, List.mem_cons, List.not_mem_nil, or_false] at ht
         rcases ht with ht | rfl
         · exact hb t ht
         · simp [xformFinite, V3finite, createMatrix, hx, hz, hw, hd])

lemma fillFixture_cabinets_finite (room : Room) (hroom : roomFinite room = true)
    (idx : ℕ) (f : String) (b : Buffers)
    (hb : ∀ t ∈ b.cabinets, xformFinite t = true) :
    ∀ t ∈ (fillFixture room idx f b).cabinets, xformFinite t = true := by
  obtain ⟨hx, hz, hw, hd⟩ := roomFinite_fields hroom
  simp only [fillFixture]
  split_ifs <;> intro t ht <;>
    first
      | exact hb t ht
      | (simp only [List.mem_append, List.mem_cons, List.not_mem_nil, or_false] at ht
         rcases ht with ht | rfl
         · exact hb t ht
         · simp [xformFinite, V3finite, createMatrix, hx, hz, hw, hd])

lemma fillFixture_fixtureDamage_finite (room : Room) (hroom : roomFinite room = true)
    (idx : ℕ) (f : String) (b : Buffers)
    (hb : ∀ t ∈ b.fixtureDamage, xformFinite t = true) :
    ∀ t ∈ (fillFixture room idx f b).fixtureDamage, xformFinite t = true := by
  obtain ⟨hx, hz, hw, hd⟩ := roomFinite_fields hroom
  simp only [fillFixture]
  split_ifs <;> intro t ht <;>
    first
      | exact hb t ht
      | (simp only [List.mem_append, List.mem_cons, List.not_mem_nil, or_false] at ht
         rcases ht with ht | rfl
         · exact hb t ht
         · simp [xformFinite, V3finite, createMatrix, hx, hz, hw, hd])

lemma fillFixtures_toilets_finite (room : Room) (hroom : roomFinite room = true) :
    ∀ (fs : List String) (idx : ℕ) (b : Buffers),
      (∀ t ∈ b.toilets, xformFinite t = true) →
      ∀ t ∈ (fillFixtures room idx fs b).toilets, xformFinite t = true := by
  intro fs
  induction fs with
  | nil => intro idx b hb; exact hb
  | cons f fs ih =>
    intro idx b hb
    exact ih (idx + 1) _ (fillFixture_toilets_finite room hroom idx f b hb)

lemma fillFixtures_sinks_finite (room : Room) (hroom : roomFinite room = true) :
    ∀ (fs : List String) (idx : ℕ) (b : Buffers),
      (∀ t ∈ b.sinks, xformFinite t = true) →
      ∀ t ∈ (fillFixtures room idx fs b).sinks, xformFinite t = true := by
  intro fs
  induction fs with
  | nil => intro idx b hb; exact hb
  | cons f fs ih =>
    intro idx b hb
    exact ih (idx + 1) _ (fillFixture_sinks_finite room hroom idx f b hb)

lemma fillFixtures_cabinets_finite (room : Room) (hroom : roomFinite room = true) :
    ∀ (fs : List String) (idx : ℕ) (b : Buffers),
      (∀ t ∈ b.cabinets, xformFinite t = true) →
      ∀ t ∈ (fillFixtures room idx fs b).cabinets, xformFinite t = true := by
  intro fs
  induction fs with
  | nil => intro idx b hb; exact hb
  | cons f fs ih =>
    intro idx b hb
    exact ih (idx + 1) _ (fillFixture_cabinets_finite room hroom idx f b hb)

lemma fillFixtures_fixtureDamage_finite (room : Room) (hroom : roomFinite room = true) :
    ∀ (fs : List String) (idx : ℕ) (b : Buffers),
      (∀ t ∈ b.fixtureDamage, xformFinite t = true) →
      ∀ t ∈ (fillFixtures room idx fs b).fixtureDamage, xformFinite t = true := by
  intro fs
  induction fs with
  | nil => intro idx b hb; exact hb
  | cons f fs ih =>
    intro idx b hb
    exact ih (idx + 1) _ (fillFixture_fixtureDamage_finite room hroom idx f b hb)

lemma fillRoom_walls_finite (b : Buffers) (room : Room)
    (hroom : roomFinite room = true)
    (hb : ∀ t ∈ b.walls, xformFinite t = true) :
    ∀ t ∈ (fillRoom b room).walls, xformFinite t = true := by
  obtain ⟨hx, hz, hw, hd⟩ := roomFinite_fields hroom
  simp only [fillRoom]
  split_ifs <;> intro t ht <;>
    (simp only [(fillFixtures_unchanged room room.fixtures 0 _).1,
       List.mem_append, List.mem_cons, List.not_mem_nil, or_false] at ht
     rcases ht with ht | rfl | rfl | rfl | rfl
     · exact hb t ht
     all_goals simp [xformFinite, V3finite, createMatrix, hx, hz, hw, hd])

lemma fillRoom_floors_finite (b : Buffers) (room : Room)
    (hroom : roomFinite room = true)
    (hb : ∀ t ∈ b.floors, xformFinite t = true) :
    ∀ t ∈ (fillRoom b room).floors, xformFinite t = true := by
  obtain ⟨hx, hz, hw, hd⟩ := roomFinite_fields hroom
  simp only [fillRoom]
  split_ifs <;> intro t ht <;>
    (simp only [(fillFixtures_unchanged room room.fixtures 0 _).2.1,
       List.mem_append, List.mem_cons, List.not_mem_nil, or_false] at ht
     rcases ht with ht | rfl
     · exact hb t ht
     · simp [xformFinite, V3finite, createMatrix, hx, hz, hw, hd])

lemma fillRoom_ceilings_finite (b : Buffers) (room : Room)
    (hroom : roomFinite room = true)
    (hb : ∀ t ∈ b.ceilings, xformFinite t = true) :
    ∀ t ∈ (fillRoom b room).ceilings, xformFinite t = true := by
  obtain ⟨hx, hz, hw, hd⟩ := roomFinite_fields hroom
  simp only [fillRoom]
  split_ifs <;> intro t ht <;>
    (simp only [(fillFixtures_unchanged room room.fixtures 0 _).2.2.1,
       List.mem_append, List.mem_cons, List.not_mem_nil, or_false] at ht
     rcases ht with ht | rfl
     · exact hb t ht
     · simp [xformFinite, V3finite, createMatrix, hx, hz, hw, hd])

lemma fillRoom_floorDamage_finite (b : Buffers) (room : Room)
    (hroom : roomFinite room = true)
    (hb : ∀ t ∈ b.floorDamage, xformFinite t = true) :
    ∀ t ∈ (fillRoom b room).floorDamage, xformFinite t = true := by
  obtain ⟨hx, hz, hw, hd⟩ := roomFinite_fields hroom
  simp only [fillRoom]
  split_ifs <;> intro t ht <;>
    (simp only [(fillFixtures_unchanged room room.fixtures 0 _).2.2.2.1,
       List.mem_append, List.mem_cons, List.not_mem_nil, or_false] at ht
     first
       | exact hb t ht
       | (rcases ht with ht | rfl
          · exact hb t ht
          · simp [xformFinite, V3finite, createMatrix, hx, hz, hw, hd]))

lemma fillRoom_wallDamage_finite (b : Buffers) (room : Room)
    (hroom : roomFinite room = true)
    (hb : ∀ t ∈ b.wallDamage, xformFinite t = true) :
    ∀ t ∈ (fillRoom b room).wallDamage, xformFinite t = true := by
  obtain ⟨hx, hz, hw, hd⟩ := roomFinite_fields hroom
  simp only [fillRoom]
  split_ifs <;> intro t ht <;>
    (simp only [(fillFixtures_unchanged room room.fixtures 0 _).2.2.2.2.1,
       List.mem_append, List.mem_cons, List.not_mem_nil, or_false] at ht
     first
       | exact hb t ht
       | (rcases ht with ht | rfl | rfl | rfl | rfl
          · exact hb t ht
          all_goals simp [xformFinite, V3finite, createMatrix, hx, hz, hw, hd]))

lemma fillRoom_ducts_finite (b : Buffers) (room : Room)
    (hroom : roomFinite room = true)
    (hb : ∀ t ∈ b.ducts, xformFinite t = true) :
    ∀ t ∈ (fillRoom b room).ducts, xformFinite t = true := by
  obtain ⟨hx, hz, hw, hd⟩ := roomFinite_fields hroom
  simp only [fillRoom]
  split_ifs <;> intro t ht <;>
    (simp only [(fillFixtures_unchanged room room.fixtures 0 _).2.2.2.2.2.1,
       List.mem_append, List.mem_cons, List.not_mem_nil, or_false] at ht
     first
       | exact hb t ht
       | (rcases ht with ht | rfl
          · exact hb t ht
          · simp [xformFinite, V3finite, createMatrix, hx, hz, hw, hd]))

lemma fillRoom_pipes_finite (b : Buffers) (room : Room)
    (hroom : roomFinite room = true)
    (hb : ∀ t ∈ b.pipes, xformFinite t = true) :
    ∀ t ∈ (fillRoom b room).pipes, xformFinite t = true := by
  obtain ⟨hx, hz, hw, hd⟩ := roomFinite_fields hroom
  simp only [fillRoom]
  split_ifs <;> intro t ht <;>
    (simp only [(fillFixtures_unchanged room room.fixtures 0 _).2.2.2.2.2.2.1,
       List.mem_append, List.mem_cons, List.not_mem_nil, or_false] at ht
     first
       | exact hb t ht
       | (rcases ht with ht | rfl
          · exact hb t ht
          · simp [xformFinite, V3finite, createMatrix, hx, hz, hw, hd]))

lemma fillRoom_infraDamage_finite (b : Buffers) (room : Room)
    (hroom : roomFinite room = true)
    (hb : ∀ t ∈ b.infraDamage, xformFinite t = true) :
    ∀ t ∈ (fillRoom b room).infraDamage, xformFinite t = true := by
  obtain ⟨hx, hz, hw, hd⟩ := roomFinite_fields hroom
  simp only [fillRoom]
  split_ifs <;> intro t ht <;>
    (simp only [(fillFixtures_unchanged room room.fixtures 0 _).2.2.2.2.2.2.2,
       List.mem_append, List.mem_cons, List.not_mem_nil, or_false] at ht
     first
       | exact hb t ht
       | (rcases ht with ht | rfl
          · exact hb t ht
          · simp [xformFinite, V3finite, createMatrix, hx, hz, hw, hd]))

lemma fillRoom_toilets_finite (b : Buffers) (room : Room)
    (hroom : roomFinite room = true)
    (hb : ∀ t ∈ b.toilets, xformFinite t = true) :
    ∀ t ∈ (fillRoom b room).toilets, xformFinite t = true := by
  simp only [fillRoom]
  split_ifs <;>
    exact fillFixtures_toilets_finite room hroom room.fixtures 0 _ hb

lemma fillRoom_sinks_finite (b : Buffers) (room : Room)
    (hroom : roomFinite room = true)
    (hb : ∀ t ∈ b.sinks, xformFinite t = true) :
    ∀ t ∈ (fillRoom b room).sinks, xformFinite t = true := by
  simp only [fillRoom]
  split_ifs <;>
    exact fillFixtures_sinks_finite room hroom room.fixtures 0 _ hb

lemma fillRoom_cabinets_finite (b : Buffers) (room : Room)
    (hroom : roomFinite room = true)
    (hb : ∀ t ∈ b.cabinets, xformFinite t = true) :
    ∀ t ∈ (fillRoom b room).cabinets, xformFinite t = true := by
  simp only [fillRoom]
  split_ifs <;>
    exact fillFixtures_cabinets_finite room hroom room.fixtures 0 _ hb

lemma fillRoom_fixtureDamage_finite (b : Buffers) (room : Room)
    (hroom : roomFinite room = true)
    (hb : ∀ t ∈ b.fixtureDamage, xformFinite t = true) :
    ∀ t ∈ (fillRoom b room).fixtureDamage, xformFinite t = true := by
  simp only [fillRoom]
  split_ifs <;>
    exact fillFixtures_fixtureDamage_finite room hroom room.fixtures 0 _ hb

lemma buffersFinite_components (b : Buffers) :
    buffersFinite b ↔
      (∀ t ∈ b.walls, xformFinite t = true) ∧
      (∀ t ∈ b.floors, xformFinite t = true) ∧
      (∀ t ∈ b.ceilings, xformFinite t = true) ∧
      (∀ t ∈ b.floorDamage, xformFinite t = true) ∧
      (∀ t ∈ b.wallDamage, xformFinite t = true) ∧
      (∀ t ∈ b.toilets, xformFinite t = true) ∧
      (∀ t ∈ b.sinks, xformFinite t = true) ∧
      (∀ t ∈ b.cabinets, xformFinite t = true) ∧
      (∀ t ∈ b.fixtureDamage, xformFinite t = true) ∧
      (∀ t ∈ b.ducts, xformFinite t = true) ∧
      (∀ t ∈ b.pipes, xformFinite t = true) ∧
      (∀ t ∈ b.infraDamage, xformFinite t = true) := by
  simp only [buffersFinite, allX, List.forall_mem_append]
  tauto

lemma foldl_fillRoom_finite (rooms : List Room) : ∀ b : Buffers,
    (∀ r ∈ rooms, roomFinite r = true) → buffersFinite b →
    buffersFinite (rooms.foldl fillRoom b) := by
  induction rooms with
  | nil => intro b _ hb; exact hb
  | cons r rooms ih =>
    intro b hr hb
    rw [List.foldl_cons]
    refine ih _ (fun r2 h2 => hr r2 (List.mem_cons_of_mem _ h2)) ?_
    have hroom := hr r (List.mem_cons_self _ _)
    rw [buffersFinite_components] at hb ⊢
    obtain ⟨h1, h2, h3, h4, h5, h6, h7, h8, h9, h10, h11, h12⟩ := hb
    exact ⟨fillRoom_walls_finite b r hroom h1,
      fillRoom_floors_finite b r hroom h2,
      fillRoom_ceilings_finite b r hroom h3,
      fillRoom_floorDamage_finite b r hroom h4,
      fillRoom_wallDamage_finite b r hroom h5,
      fillRoom_toilets_finite b r hroom h6,
      fillRoom_sinks_finite b r hroom h7,
      fillRoom_cabinets_finite b r hroom h8,
      fillRoom_fixtureDamage_finite b r hroom h9,
      fillRoom_ducts_finite b r hroom h10,
      fillRoom_pipes_finite b r hroom h11,
      fillRoom_infraDamage_finite b r hroom h12⟩

/-! ### Whole-list totals -/

lemma foldl_fillRoom_walls (rooms : List Room) : ∀ b : Buffers,
    (rooms.foldl fillRoom b).walls.length = b.walls.length + 4 * rooms.length := by
  induction rooms with
  | nil => intro b; simp
  | cons r rooms ih =>
    intro b
    rw [List.foldl_cons, ih, fillRoom_walls]
    simp only [List.length_cons]
    omega

lemma foldl_fillRoom_floors (rooms : List Room) : ∀ b : Buffers,
    (rooms.foldl fillRoom b).floors.length = b.floors.length + rooms.length := by
  induction rooms with
  | nil => intro b; simp
  | cons r rooms ih =>
    intro b
    rw [List.foldl_cons, ih, fillRoom_floors]
    simp only [List.length_cons]
    omega

lemma foldl_fillRoom_ceilings (rooms : List Room) : ∀ b : Buffers,
    (rooms.foldl fillRoom b).ceilings.length = b.ceilings.length + rooms.length := by
  induction rooms with
  | nil => intro b; simp
  | cons r rooms ih =>
    intro b
    rw [List.foldl_cons, ih, fillRoom_ceilings]
    simp only [List.length_cons]
    omega

lemma foldl_fillRoom_toilets (rooms : List Room) : ∀ b : Buffers,
    (rooms.foldl fillRoom b).toilets.length =
      b.toilets.length + totFixture tokToilet rooms := by
  induction rooms with
  | nil => intro b; simp [totFixture]
  | cons r rooms ih =>
    intro b
    rw [List.foldl_cons, ih, fillRoom_toilets]
    simp only [totFixture, List.map_cons, List.sum_cons]
    omega

lemma foldl_fillRoom_sinks (rooms : List Room) : ∀ b : Buffers,
    (rooms.foldl fillRoom b).sinks.length =
      b.sinks.length + totFixture tokSink rooms := by
  induction rooms with
  | nil => intro b; simp [totFixture]
  | cons r rooms ih =>
    intro b
    rw [List.foldl_cons, ih, fillRoom_sinks]
    simp only [totFixture, List.map_cons, List.sum_cons]
    omega

lemma foldl_fillRoom_cabinets (rooms : List Room) : ∀ b : Buffers,
    (rooms.foldl fillRoom b).cabinets.length =
      b.cabinets.length + totFixture tokCabinet rooms := by
  induction rooms with
  | nil => intro b; simp [totFixture]
  | cons r rooms ih =>
    intro b
    rw [List.foldl_cons, ih, fillRoom_cabinets]
    simp only [totFixture, List.map_cons, List.sum_cons]
    omega

lemma foldl_fillRoom_floorDamage (rooms : List Room) : ∀ b : Buffers,
    (rooms.foldl fillRoom b).floorDamage.length =
      b.floorDamage.length + totDamage DamageType.floor rooms := by
  induction rooms with
  | nil => intro b; simp [totDamage]
  | cons r rooms ih =>
    intro b
    rw [List.foldl_cons, ih, fillRoom_floorDamage]
    simp only [totDamage, List.map_cons, List.sum_cons]
    split_ifs <;> omega

lemma foldl_fillRoom_wallDamage (rooms : List Room) : ∀ b : Buffers,
    (rooms.foldl fillRoom b).wallDamage.length =
      b.wallDamage.length + 4 * totDamage DamageType.wall rooms := by
  induction rooms with
  | nil => intro b; simp [totDamage]
  | cons r rooms ih =>
    intro b
    rw [List.foldl_cons, ih, fillRoom_wallDamage]
    simp only [totDamage, List.map_cons, List.sum_cons]
    split_ifs <;> omega

lemma foldl_fillRoom_fixtureDamage (rooms : List Room) : ∀ b : Buffers,
    (rooms.foldl fillRoom b).fixtureDamage.length =
      b.fixtureDamage.length + totFixtureDamage rooms := by
  induction rooms with
  | nil => intro b; simp [totFixtureDamage]
  | cons r rooms ih =>
    intro b
    rw [List.foldl_cons, ih, fillRoom_fixtureDamage]
    simp only [totFixtureDamage, List.map_cons, List.sum_cons]
    split_ifs <;> omega

lemma foldl_fillRoom_ducts (rooms : List Room) : ∀ b : Buffers,
    (rooms.foldl fillRoom b).ducts.length = b.ducts.length + totLeak rooms := by
  induction rooms with
  | nil => intro b; simp [totLeak]
  | cons r rooms ih =>
    intro b
    rw [List.foldl_cons, ih, fillRoom_ducts]
    simp only [totLeak, List.map_cons, List.sum_cons]
    split_ifs <;> omega

lemma foldl_fillRoom_pipes (rooms : List Room) : ∀ b : Buffers,
    (rooms.foldl fillRoom b).pipes.length = b.pipes.length + totLeak rooms := by
  induction rooms with
  | nil => intro b; simp [totLeak]
  | cons r rooms ih =>
    intro b
    rw [List.foldl_cons, ih, fillRoom_pipes]
    simp only [totLeak, List.map_cons, List.sum_cons]
    split_ifs <;> omega

lemma foldl_fillRoom_infraDamage (rooms : List Room) : ∀ b : Buffers,
    (rooms.foldl fillRoom b).infraDamage.length =
      b.infraDamage.length + totLeak rooms := by
  induction rooms with
  | nil => intro b; simp [totLeak]
  | cons r rooms ih =>
    intro b
    rw [List.foldl_cons, ih, fillRoom_infraDamage]
    simp only [totLeak, List.map_cons, List.sum_cons]
    split_ifs <;> omega

lemma foldl_countRoom_toiletCount (rooms : List Room) : ∀ c : Counts,
    (rooms.foldl countRoom c).toiletCount = c.toiletCount + totFixture tokToilet rooms := by
  induction rooms with
  | nil => intro c; simp [totFixture]
  | cons r rooms ih =>
    intro c
    rw [List.foldl_cons, ih, countRoom_toiletCount]
    simp only [totFixture, List.map_cons, List.sum_cons]
    omega

lemma foldl_countRoom_sinkCount (rooms : List Room) : ∀ c : Counts,
    (rooms.foldl countRoom c).sinkCount = c.sinkCount + totFixture tokSink rooms := by
  induction rooms with
  | nil => intro c; simp [totFixture]
  | cons r rooms ih =>
    intro c
    rw [List.foldl_cons, ih, countRoom_sinkCount]
    simp only [totFixture, List.map_cons, List.sum_cons]
    omega

lemma foldl_countRoom_cabinetCount (rooms : List Room) : ∀ c : Counts,
    (rooms.foldl countRoom c).cabinetCount = c.cabinetCount + totFixture tokCabinet rooms := by
  induction rooms with
  | nil => intro c; simp [totFixture]
  | cons r rooms ih =>
    intro c
    rw [List.foldl_cons, ih, countRoom_cabinetCount]
    simp only [totFixture, List.map_cons, List.sum_cons]
    omega

lemma foldl_countRoom_floorDamageCount (rooms : List Room) : ∀ c : Counts,
    (rooms.foldl countRoom c).floorDamageCount =
      c.floorDamageCount + totDamage DamageType.floor rooms := by
  induction rooms with
  | nil => intro c; simp [totDamage]
  | cons r rooms ih =>
    intro c
    rw [List.foldl_cons, ih, countRoom_floorDamageCount]
    simp only [totDamage, List.map_cons, List.sum_cons]
    split_ifs <;> omega

lemma foldl_countRoom_wallDamageCount (rooms : List Room) : ∀ c : Counts,
    (rooms.foldl countRoom c).wallDamageCount =
      c.wallDamageCount + totDamage DamageType.wall rooms := by
  induction rooms with
  | nil => intro c; simp [totDamage]
  | cons r rooms ih =>
    intro c
    rw [List.foldl_cons, ih, countRoom_wallDamageCount]
    simp only [totDamage, List.map_cons, List.sum_cons]
    split_ifs <;> omega

lemma foldl_countRoom_ceilingDamageCount (rooms : List Room) : ∀ c : Counts,
    (rooms.foldl countRoom c).ceilingDamageCount =
      c.ceilingDamageCount + totLeak rooms := by
  induction rooms with
  | nil => intro c; simp [totLeak]
  | cons r rooms ih =>
    intro c
    rw [List.foldl_cons, ih, countRoom_ceilingDamageCount]
    simp only [totLeak, List.map_cons, List.sum_cons]
    split_ifs <;> omega

lemma foldl_countRoom_fixtureDamageCount (rooms : List Room) : ∀ c : Counts,
    (rooms.foldl countRoom c).fixtureDamageCount =
      c.fixtureDamageCount + totFixtureDamage rooms := by
  induction rooms with
  | nil => intro c; simp [totFixtureDamage]
  | cons r rooms ih =>
    intro c
    rw [List.foldl_cons, ih, countRoom_fixtureDamageCount]
    simp only [totFixtureDamage, List.map_cons, List.sum_cons]
    split_ifs <;> omega

/-! ## Theorems -/

/-- C1: for a fixed room list and fixed seed constants the scattered
damage elements are deterministic: `seededRandom` is a pure function of
its numeric seed (it is modelled as a function, and the builds below are
equal as values), every puddle and stain element is a function of the
seven `seededRandom` samples taken at seed offsets `seed`, `seed+1`, ...,
`seed+6`, and two builds over the same input produce equal
(position, scale, opacity) tuples for every element. -/
theorem C1_scatter_determinism (msin : ℚ → ℚ) :
    (∀ p : ℕ, Scatter.puddleAt msin p =
      Scatter.puddleOfSamples p (fun k => Scatter.seededRandom msin (Scatter.puddleSeed p + k))) ∧
    (∀ s : ℕ, Scatter.stainAt msin s =
      Scatter.stainOfSamples s (fun k => Scatter.seededRandom msin (Scatter.stainSeed s + k))) ∧
    Scatter.buildPuddles msin = Scatter.buildPuddles msin ∧
    Scatter.buildStains msin = Scatter.buildStains msin := by
  refine ⟨fun p => ?_, fun s => ?_, rfl, rfl⟩
  · simp only [Scatter.puddleAt, Scatter.puddleOfSamples]
    norm_num
  · simp only [Scatter.stainAt, Scatter.stainOfSamples]
    norm_num

/-- C3: applying the layer toggles changes the visibility flag of
exactly the matching damage group: each damage group's `visible` equals
its toggle boolean, the building group is always visible, the contents
(group assignment of the primitives) are untouched, flipping one toggle
changes only the matching group, and the unrelated `flood` boolean
changes nothing. -/
theorem C3_visibility_isolation (α : Type) (g : SceneGroups α) (l : LayerState) :
    ((applyVisibility g l).floorDamage.visible = l.floorDamage ∧
     (applyVisibility g l).wallDamage.visible = l.wallDamage ∧
     (applyVisibility g l).ceilingDamage.visible = l.ceilingDamage ∧
     (applyVisibility g l).building.visible = true) ∧
    ((applyVisibility g l).building.contents = g.building.contents ∧
     (applyVisibility g l).floorDamage.contents = g.floorDamage.contents ∧
     (applyVisibility g l).wallDamage.contents = g.wallDamage.contents ∧
     (applyVisibility g l).ceilingDamage.contents = g.ceilingDamage.contents) ∧
    (∀ b : Bool,
      applyVisibility g { l with floorDamage := b } =
        { applyVisibility g l with floorDamage := ⟨g.floorDamage.contents, b⟩ } ∧
      applyVisibility g { l with wallDamage := b } =
        { applyVisibility g l with wallDamage := ⟨g.wallDamage.contents, b⟩ } ∧
      applyVisibility g { l with ceilingDamage := b } =
        { applyVisibility g l with ceilingDamage := ⟨g.ceilingDamage.contents, b⟩ } ∧
      applyVisibility g { l with flood := b } = applyVisibility g l) :=
  ⟨⟨rfl, rfl, rfl, rfl⟩, ⟨rfl, rfl, rfl, rfl⟩, fun _ => ⟨rfl, rfl, rfl, rfl⟩⟩

/-- C5 counterexample: at a displacement of (4, 4) pixels the code
performs picking (both per-axis deltas are at most 5) although the
Euclidean distance √32 exceeds the threshold 5, refuting "picking iff
Euclidean distance below the threshold". -/
theorem C5_euclidean_counterexample :
    doesPick 4 4 0 0 = true ∧
    ((4 : ℚ) - 0) ^ 2 + ((4 : ℚ) - 0) ^ 2 > moveThreshold ^ 2 := by
  constructor
  · norm_num [doesPick, moveThreshold, abs_of_nonneg]
  · norm_num [moveThreshold]

/-- C5 amended: `handleClick` performs ray-cast picking iff BOTH
per-axis absolute pixel deltas from the recorded pointer position are at
most the threshold 5 (a Chebyshev check, not a Euclidean one); if either
axis delta exceeds 5 the event is treated as a completed drag and no
picking occurs. -/
theorem C5_click_threshold (clickX clickY lastX lastY : ℚ) :
    doesPick clickX clickY lastX lastY = true ↔
      |clickX - lastX| ≤ moveThreshold ∧ |clickY - lastY| ≤ moveThreshold := by
  simp only [doesPick]
  split
  next h =>
    constructor
    · intro hfalse
      exact absurd hfalse (by simp)
    · rintro ⟨h1, h2⟩
      rcases h with h | h
      · exact absurd h (not_lt.mpr h1)
      · exact absurd h (not_lt.mpr h2)
  next h =>
    push_neg at h
    simpa using h

/-- C6: a non-drag click resolves to at most one room from the nearest
hit of the sorted intersection list, with toggle semantics: no hit
clears the selection, the nearest hit is a genuine hit of minimal
distance, hitting the already-selected room clears the selection, and
hitting a different room selects it. -/
theorem C6_nearest_toggle_selection (hits : List Hit) (selected : Option String) :
    (hits = [] → pickNearest hits selected = none) ∧
    (∀ h t, sortHits hits = h :: t →
      h ∈ hits ∧ (∀ g ∈ hits, h.dist ≤ g.dist) ∧
      (selected = some h.roomId → pickNearest hits selected = none) ∧
      (selected ≠ some h.roomId → pickNearest hits selected = some h.roomId)) := by
  constructor
  · rintro rfl
    rfl
  · intro h t hsort
    have hmem : h ∈ hits := by
      have hh : h ∈ sortHits hits := hsort ▸ List.mem_cons_self h t
      rwa [sortHits, List.mem_insertionSort] at hh
    have hsorted : List.Sorted hitLe (sortHits hits) :=
      List.sorted_insertionSort hitLe hits
    rw [hsort] at hsorted
    refine ⟨hmem, ?_, ?_, ?_⟩
    · intro g hg
      have hg2 : g ∈ sortHits hits := by
        rwa [sortHits, List.mem_insertionSort]
      rw [hsort] at hg2
      rcases List.mem_cons.mp hg2 with hgh | hgt
      · exact hgh ▸ le_refl _
      · exact List.rel_of_sorted_cons hsorted g hgt
    · intro heq
      simp [pickNearest, hsort, heq]
    · intro hne
      simp [pickNearest, hsort, hne]

/-- C6 witness: with hits A at distance 2 and B at distance 1, clicking
while B is selected clears the selection, and clicking while A is
selected selects B (the nearest). -/
theorem C6_witness :
    pickNearest [(⟨"A", 2⟩ : Hit), ⟨"B", 1⟩] (some "B") = none ∧
    pickNearest [(⟨"A", 2⟩ : Hit), ⟨"B", 1⟩] (some "A") = some "B" := by
  have hsort : sortHits [(⟨"A", 2⟩ : Hit), ⟨"B", 1⟩] = [⟨"B", 1⟩, ⟨"A", 2⟩] := by
    decide
  exact ⟨((C6_nearest_toggle_selection [⟨"A", 2⟩, ⟨"B", 1⟩] (some "B")).2
      ⟨"B", 1⟩ [⟨"A", 2⟩] hsort).2.2.1 rfl,
    ((C6_nearest_toggle_selection [⟨"A", 2⟩, ⟨"B", 1⟩] (some "A")).2
      ⟨"B", 1⟩ [⟨"A", 2⟩] hsort).2.2.2 (by simp)⟩

/-- C4: after the fill pass, the populated wall transforms number
4 × room count, the floor transforms equal the room count, each fixture
buffer holds exactly the total number of that fixture token across all
rooms, these populated counts coincide with the counts computed by the
preceding counting pass, and they equal the allocated buffer capacity
(for the fixture buffers, whenever the counted total is at least one,
since those buffers are allocated with capacity `max 1 count`). -/
theorem C4_instance_count_integrity (rooms : List Room) :
    ((fillBuffers rooms).walls.length = 4 * rooms.length ∧
     (fillBuffers rooms).floors.length = rooms.length ∧
     (fillBuffers rooms).toilets.length = totFixture tokToilet rooms ∧
     (fillBuffers rooms).sinks.length = totFixture tokSink rooms ∧
     (fillBuffers rooms).cabinets.length = totFixture tokCabinet rooms) ∧
    ((fillBuffers rooms).walls.length = wallCount rooms ∧
     (fillBuffers rooms).floors.length = floorCount rooms ∧
     (fillBuffers rooms).toilets.length = (countInstances rooms).toiletCount ∧
     (fillBuffers rooms).sinks.length = (countInstances rooms).sinkCount ∧
     (fillBuffers rooms).cabinets.length = (countInstances rooms).cabinetCount) ∧
    ((allocCaps rooms).walls = (fillBuffers rooms).walls.length ∧
     (allocCaps rooms).floors = (fillBuffers rooms).floors.length ∧
     (1 ≤ (countInstances rooms).toiletCount →
        (allocCaps rooms).toilets = (fillBuffers rooms).toilets.length) ∧
     (1 ≤ (countInstances rooms).sinkCount →
        (allocCaps rooms).sinks = (fillBuffers rooms).sinks.length) ∧
     (1 ≤ (countInstances rooms).cabinetCount →
        (allocCaps rooms).cabinets = (fillBuffers rooms).cabinets.length)) := by
  have hW : (fillBuffers rooms).walls.length = 4 * rooms.length := by
    simpa [fillBuffers, emptyBuffers] using foldl_fillRoom_walls rooms emptyBuffers
  have hF : (fillBuffers rooms).floors.length = rooms.length := by
    simpa [fillBuffers, emptyBuffers] using foldl_fillRoom_floors rooms emptyBuffers
  have hT : (fillBuffers rooms).toilets.length = totFixture tokToilet rooms := by
    simpa [fillBuffers, emptyBuffers] using foldl_fillRoom_toilets rooms emptyBuffers
  have hS : (fillBuffers rooms).sinks.length = totFixture tokSink rooms := by
    simpa [fillBuffers, emptyBuffers] using foldl_fillRoom_sinks rooms emptyBuffers
  have hC : (fillBuffers rooms).cabinets.length = totFixture tokCabinet rooms := by
    simpa [fillBuffers, emptyBuffers] using foldl_fillRoom_cabinets rooms emptyBuffers
  have cT : (countInstances rooms).toiletCount = totFixture tokToilet rooms := by
    simpa [countInstances] using foldl_countRoom_toiletCount rooms ⟨0, 0, 0, 0, 0, 0, 0⟩
  have cS : (countInstances rooms).sinkCount = totFixture tokSink rooms := by
    simpa [countInstances] using foldl_countRoom_sinkCount rooms ⟨0, 0, 0, 0, 0, 0, 0⟩
  have cC : (countInstances rooms).cabinetCount = totFixture tokCabinet rooms := by
    simpa [countInstances] using foldl_countRoom_cabinetCount rooms ⟨0, 0, 0, 0, 0, 0, 0⟩
  refine ⟨⟨hW, hF, hT, hS, hC⟩,
    ⟨by rw [hW, wallCount, Nat.mul_comm],
     by rw [hF, floorCount],
     by rw [hT, cT],
     by rw [hS, cS],
     by rw [hC, cC]⟩,
    ?_, ?_, ?_, ?_, ?_⟩
  · simp only [allocCaps, wallCount]
    omega
  · simp only [allocCaps, floorCount]
    omega
  · intro h1
    simp only [allocCaps]
    rw [cT, hT]
    exact Nat.max_eq_right (cT ▸ h1)
  · intro h1
    simp only [allocCaps]
    rw [cS, hS]
    exact Nat.max_eq_right (cS ▸ h1)
  · intro h1
    simp only [allocCaps]
    rw [cC, hC]
    exact Nat.max_eq_right (cC ▸ h1)

/-- C4 witness: at the one-room list with one toilet, one sink and one
cabinet, the fixture capacities coincide with the populated counts and
the wall-transform count is 4 × 1. -/
theorem C4_witness :
    (allocCaps [roomFull]).toilets = (fillBuffers [roomFull]).toilets.length ∧
    (allocCaps [roomFull]).sinks = (fillBuffers [roomFull]).sinks.length ∧
    (allocCaps [roomFull]).cabinets = (fillBuffers [roomFull]).cabinets.length ∧
    (fillBuffers [roomFull]).walls.length = 4 * ([roomFull] : List Room).length := by
  obtain ⟨⟨hw, -, -, -, -⟩, -, -, -, ht, hs, hc⟩ :=
    C4_instance_count_integrity [roomFull]
  exact ⟨ht (by decide), hs (by decide), hc (by decide), hw⟩

/-- C8 counterexample: for a room list whose single room carries no
floor damage, the computed floor-damage count is zero yet the allocated
floor-damage buffer capacity is 0, not the claimed minimum of 1 (the
source passes the raw count to this InstancedMesh, without
`Math.max(1, ...)`). -/
theorem C8_zero_capacity_counterexample :
    (countInstances [roomClean]).floorDamageCount = 0 ∧
    (allocCaps [roomClean]).floorDamage = 0 ∧
    (allocCaps [roomClean]).floorDamage ≠ 1 := by
  refine ⟨by decide, by decide, by decide⟩

/-- C8 amended: only the fixture (toilet/sink/cabinet), fixture-damage
and infrastructure (duct/pipe/infrastructure-damage) buffers are
allocated with capacity `max 1 count` and are left unpopulated when the
count is zero; the structural buffers and the floor/wall damage overlay
buffers are allocated with exactly the computed count, which is zero for
a damage-free room list. -/
theorem C8_min_capacity_partial (rooms : List Room) :
    ((allocCaps rooms).toilets = max 1 (countInstances rooms).toiletCount ∧
     (allocCaps rooms).sinks = max 1 (countInstances rooms).sinkCount ∧
     (allocCaps rooms).cabinets = max 1 (countInstances rooms).cabinetCount ∧
     (allocCaps rooms).fixtureDamage = max 1 (countInstances rooms).fixtureDamageCount ∧
     (allocCaps rooms).ducts = max 1 (countInstances rooms).ceilingDamageCount ∧
     (allocCaps rooms).pipes = max 1 (countInstances rooms).ceilingDamageCount ∧
     (allocCaps rooms).infraDamage = max 1 (countInstances rooms).ceilingDamageCount) ∧
    ((countInstances rooms).toiletCount = 0 →
       (allocCaps rooms).toilets = 1 ∧ (fillBuffers rooms).toilets.length = 0) ∧
    ((countInstances rooms).sinkCount = 0 →
       (allocCaps rooms).sinks = 1 ∧ (fillBuffers rooms).sinks.length = 0) ∧
    ((countInstances rooms).cabinetCount = 0 →
       (allocCaps rooms).cabinets = 1 ∧ (fillBuffers rooms).cabinets.length = 0) ∧
    ((countInstances rooms).fixtureDamageCount = 0 →
       (allocCaps rooms).fixtureDamage = 1 ∧
       (fillBuffers rooms).fixtureDamage.length = 0) ∧
    ((countInstances rooms).ceilingDamageCount = 0 →
       (allocCaps rooms).ducts = 1 ∧ (allocCaps rooms).pipes = 1 ∧
       (allocCaps rooms).infraDamage = 1 ∧
       (fillBuffers rooms).ducts.length = 0 ∧
       (fillBuffers rooms).pipes.length = 0 ∧
       (fillBuffers rooms).infraDamage.length = 0) ∧
    ((allocCaps rooms).floorDamage = (countInstances rooms).floorDamageCount ∧
     (allocCaps rooms).wallDamage = (countInstances rooms).wallDamageCount * 4 ∧
     (allocCaps rooms).walls = rooms.length * 4 ∧
     (allocCaps rooms).floors = rooms.length ∧
     (allocCaps rooms).ceilings = rooms.length) := by
  have cT : (countInstances rooms).toiletCount = totFixture tokToilet rooms := by
    simpa [countInstances] using foldl_countRoom_toiletCount rooms ⟨0, 0, 0, 0, 0, 0, 0⟩
  have cS : (countInstances rooms).sinkCount = totFixture tokSink rooms := by
    simpa [countInstances] using foldl_countRoom_sinkCount rooms ⟨0, 0, 0, 0, 0, 0, 0⟩
  have cC : (countInstances rooms).cabinetCount = totFixture tokCabinet rooms := by
    simpa [countInstances] using foldl_countRoom_cabinetCount rooms ⟨0, 0, 0, 0, 0, 0, 0⟩
  have cFd : (countInstances rooms).fixtureDamageCount = totFixtureDamage rooms := by
    simpa [countInstances] using foldl_countRoom_fixtureDamageCount rooms ⟨0, 0, 0, 0, 0, 0, 0⟩
  have cCd : (countInstances rooms).ceilingDamageCount = totLeak rooms := by
    simpa [countInstances] using foldl_countRoom_ceilingDamageCount rooms ⟨0, 0, 0, 0, 0, 0, 0⟩
  have hT : (fillBuffers rooms).toilets.length = totFixture tokToilet rooms := by
    simpa [fillBuffers, emptyBuffers] using foldl_fillRoom_toilets rooms emptyBuffers
  have hS : (fillBuffers rooms).sinks.length = totFixture tokSink rooms := by
    simpa [fillBuffers, emptyBuffers] using foldl_fillRoom_sinks rooms emptyBuffers
  have hC : (fillBuffers rooms).cabinets.length = totFixture tokCabinet rooms := by
    simpa [fillBuffers, emptyBuffers] using foldl_fillRoom_cabinets rooms emptyBuffers
  have hFd : (fillBuffers rooms).fixtureDamage.length = totFixtureDamage rooms := by
    simpa [fillBuffers, emptyBuffers] using foldl_fillRoom_fixtureDamage rooms emptyBuffers
  have hDu : (fillBuffers rooms).ducts.length = totLeak rooms := by
    simpa [fillBuffers, emptyBuffers] using foldl_fillRoom_ducts rooms emptyBuffers
  have hPi : (fillBuffers rooms).pipes.length = totLeak rooms := by
    simpa [fillBuffers, emptyBuffers] using foldl_fillRoom_pipes rooms emptyBuffers
  have hIn : (fillBuffers rooms).infraDamage.length = totLeak rooms := by
    simpa [fillBuffers, emptyBuffers] using foldl_fillRoom_infraDamage rooms emptyBuffers
  refine ⟨⟨by simp [allocCaps], by simp [allocCaps], by simp [allocCaps],
      by simp [allocCaps], by simp [allocCaps], by simp [allocCaps],
      by simp [allocCaps]⟩,
    ?_, ?_, ?_, ?_, ?_,
    ⟨by simp [allocCaps], by simp [allocCaps], by simp [allocCaps, wallCount],
     by simp [allocCaps, floorCount], by simp [allocCaps, ceilingCount]⟩⟩
  · intro h0
    refine ⟨by simp [allocCaps, h0], ?_⟩
    rw [hT, ← cT, h0]
  · intro h0
    refine ⟨by simp [allocCaps, h0], ?_⟩
    rw [hS, ← cS, h0]
  · intro h0
    refine ⟨by simp [allocCaps, h0], ?_⟩
    rw [hC, ← cC, h0]
  · intro h0
    refine ⟨by simp [allocCaps, h0], ?_⟩
    rw [hFd, ← cFd, h0]
  · intro h0
    refine ⟨by simp [allocCaps, h0], by simp [allocCaps, h0],
      by simp [allocCaps, h0], ?_, ?_, ?_⟩
    · rw [hDu, ← cCd, h0]
    · rw [hPi, ← cCd, h0]
    · rw [hIn, ← cCd, h0]

/-- C8 witness: over the damage-free one-room list every fixture and
infrastructure count is zero, the corresponding buffers get capacity 1,
and no transform is written into them. -/
theorem C8_witness :
    ((allocCaps [roomClean]).toilets = 1 ∧
     (fillBuffers [roomClean]).toilets.length = 0) ∧
    ((allocCaps [roomClean]).ducts = 1 ∧ (allocCaps [roomClean]).pipes = 1 ∧
     (allocCaps [roomClean]).infraDamage = 1 ∧
     (fillBuffers [roomClean]).ducts.length = 0 ∧
     (fillBuffers [roomClean]).pipes.length = 0 ∧
     (fillBuffers [roomClean]).infraDamage.length = 0) := by
  obtain ⟨-, h1, -, -, -, h5, -⟩ := C8_min_capacity_partial [roomClean]
  exact ⟨h1 (by decide), h5 (by decide)⟩

/-- C9 counterexample: a room whose x coordinate is NaN is NOT skipped
or clamped: the builder still writes its floor transform, and that
transform carries NaN components into the batched buffer. -/
theorem C9_nan_counterexample :
    (fillBuffers [roomNaN]).floors.length = 1 ∧
    (fillBuffers [roomNaN]).floors.any (fun t => !(xformFinite t)) = true := by
  constructor
  · rfl
  · rfl

/-- C9 amended: the builder performs no defensive validation — every
room record receives its transforms unconditionally (one floor transform
per room, well-formed or not) — but when every room's coordinates and
extents are finite, no transform written into any batched buffer
contains NaN. -/
theorem C9_no_nan_for_finite_rooms (rooms : List Room) :
    (fillBuffers rooms).floors.length = rooms.length ∧
    ((∀ r ∈ rooms, roomFinite r = true) → buffersFinite (fillBuffers rooms)) := by
  constructor
  · simpa [fillBuffers, emptyBuffers] using foldl_fillRoom_floors rooms emptyBuffers
  · intro hr
    refine foldl_fillRoom_finite rooms emptyBuffers hr ?_
    intro t ht
    simp [allX, emptyBuffers] at ht

/-- C9 witness: the all-finite sample room produces a NaN-free buffer
set, with its floor transform written. -/
theorem C9_witness :
    buffersFinite (fillBuffers [roomFull]) ∧
    (fillBuffers [roomFull]).floors.length = 1 := by
  have h := C9_no_nan_for_finite_rooms [roomFull]
  refine ⟨h.2 ?_, h.1⟩
  intro r hr
  rw [List.mem_singleton] at hr
  subst hr
  rfl

/-! ### Camera lemmas -/

lemma phi_min_le_phi_max : PHI_MIN ≤ PHI_MAX := by
  have h := Real.pi_gt_three
  simp only [PHI_MIN, PHI_MAX]
  linarith

lemma camInv_default : camInv defaultCam := by
  have h := Real.pi_gt_three
  simp only [camInv, defaultCam, DEFAULT_THETA, THETA_LIMIT, PHI_MIN, PHI_MAX]
  refine ⟨by norm_num, by norm_num, by linarith, by linarith, by linarith, by linarith⟩

lemma camInv_step (s : CamState) (e : CamEvt) (hs : camInv s) :
    camInv (camStep s e) := by
  have h := Real.pi_gt_three
  cases e with
  | down button x y =>
    simp only [camStep]
    split_ifs <;> exact hs
  | up => exact hs
  | move x y =>
    simp only [camStep]
    split_ifs
    · obtain ⟨h1, h2, h3, h4, h5, h6⟩ := hs
      refine ⟨h1, h2, le_max_left _ _,
        max_le phi_min_le_phi_max (min_le_left _ _),
        le_max_left _ _,
        max_le ?_ (min_le_left _ _)⟩
      simp only [DEFAULT_THETA, THETA_LIMIT]
      linarith
    · exact hs
  | wheel dy =>
    obtain ⟨h1, h2, h3, h4, h5, h6⟩ := hs
    exact ⟨le_max_left _ _, max_le (by norm_num) (min_le_left _ _), h3, h4, h5, h6⟩

lemma camInv_run (es : List CamEvt) : ∀ s : CamState, camInv s →
    camInv (camRun s es) := by
  induction es with
  | nil => intro s hs; exact hs
  | cons e es ih =>
    intro s hs
    rw [camRun, List.foldl_cons]
    exact ih _ (camInv_step s e hs)

/-- C2: starting from the default camera state, after any sequence of
pointer and wheel events ending in a mouse move, phi lies in
[PHI_MIN, PHI_MAX] = [0.1, π/2 - 0.1] and theta lies in
[π/4 - π/2, π/4 + π/2]; after any sequence ending in a wheel event the
radius lies in [100, 600]. -/
theorem C2_camera_bounds (es : List CamEvt) (x y dy : ℝ) :
    (PHI_MIN ≤ (camRun defaultCam (es ++ [CamEvt.move x y])).phi ∧
     (camRun defaultCam (es ++ [CamEvt.move x y])).phi ≤ PHI_MAX ∧
     DEFAULT_THETA - THETA_LIMIT ≤ (camRun defaultCam (es ++ [CamEvt.move x y])).theta ∧
     (camRun defaultCam (es ++ [CamEvt.move x y])).theta ≤ DEFAULT_THETA + THETA_LIMIT) ∧
    (100 ≤ (camRun defaultCam (es ++ [CamEvt.wheel dy])).radius ∧
     (camRun defaultCam (es ++ [CamEvt.wheel dy])).radius ≤ 600) := by
  have h1 := camInv_run (es ++ [CamEvt.move x y]) defaultCam camInv_default
  have h2 := camInv_run (es ++ [CamEvt.wheel dy]) defaultCam camInv_default
  exact ⟨⟨h1.2.2.1, h1.2.2.2.1, h1.2.2.2.2.1, h1.2.2.2.2.2⟩, h2.1, h2.2.1⟩

/-- C10: for every camera state reachable from the default state, the
per-frame camera position satisfies position.y > target.y: phi is
clamped strictly below π/2 and the radius is at least 100, so
radius · cos(phi) is strictly positive. -/
theorem C10_camera_above_target (es : List CamEvt) (target : Vec3R) :
    target.y < (animCameraPos target (camRun defaultCam es)).y := by
  obtain ⟨h1, h2, h3, h4, h5, h6⟩ := camInv_run es defaultCam camInv_default
  have hπ := Real.pi_gt_three
  have hcos : 0 < Real.cos (camRun defaultCam es).phi := by
    apply Real.cos_pos_of_mem_Ioo
    constructor
    · simp only [PHI_MIN] at h3
      linarith
    · simp only [PHI_MAX] at h4
      linarith
  have hrad : (0 : ℝ) < (camRun defaultCam es).radius := by linarith
  have hpos := mul_pos hrad hcos
  simp only [animCameraPos]
  linarith

/-- C7 counterexample: with a NaN pointer coordinate the computed delta
is NaN, and the clamped write stores NaN into the spherical state: the
stored phi (respectively theta) is NaN, not a finite number within the
clamp bounds — JS `Math.min`/`Math.max` propagate NaN instead of
guarding it. -/
theorem C7_nan_counterexample :
    (handleMouseMoveJs c7cam (some 0) none).phi = none ∧
    (handleMouseMoveJs c7cam none (some 0)).theta = none ∧
    ∀ q : ℝ, (handleMouseMoveJs c7cam (some 0) none).phi ≠ some q := by
  refine ⟨rfl, rfl, fun q h => Option.noConfusion h⟩

/-- C7 amended: when the pointer coordinates and the stored state are
finite (non-NaN) real numbers, each `handleMouseMove` write leaves phi
within [PHI_MIN, PHI_MAX] and theta within its clamp window; a NaN
delta, however, is not guarded and is stored as NaN (see the
counterexample). -/
theorem C7_finite_deltas_clamped (p t lx ly x y : ℝ) :
    ∃ p2 t2 : ℝ,
      (handleMouseMoveJs ⟨some p, some t, some lx, some ly, true⟩
        (some x) (some y)).phi = some p2 ∧
      PHI_MIN ≤ p2 ∧ p2 ≤ PHI_MAX ∧
      (handleMouseMoveJs ⟨some p, some t, some lx, some ly, true⟩
        (some x) (some y)).theta = some t2 ∧
      DEFAULT_THETA - THETA_LIMIT ≤ t2 ∧ t2 ≤ DEFAULT_THETA + THETA_LIMIT := by
  have h := Real.pi_gt_three
  refine ⟨max PHI_MIN (min PHI_MAX (p + (y - ly) * 0.003)),
    max (DEFAULT_THETA - THETA_LIMIT)
      (min (DEFAULT_THETA + THETA_LIMIT) (t + -(x - lx) * 0.003)),
    rfl, le_max_left _ _, max_le phi_min_le_phi_max (min_le_left _ _),
    rfl, le_max_left _ _, max_le ?_ (min_le_left _ _)⟩
  simp only [DEFAULT_THETA, THETA_LIMIT]
  linarith

end Hospital
